import Mathlib

/-!
# A formal model of `blart` (src/main.go)

`blart` supervises a child process: it watches files, debounces change
notifications through a `sync.Cond`-based dispatcher, relays OS signals to the
child, and runs a graceful-then-forced shutdown sequence on termination-class
signals.

The development below is a shallow embedding of the four pieces of the program
the specification talks about:

* the debounce dispatcher of `signalDebounce` (a timed-trace semantics of the
  `cond.Wait(); time.Sleep(delay); process.Signal(sig)` loop),
* the shutdown controller goroutine of `main` (the `sig = <-c` loop with its
  two `select`-based deadline races over the one-shot `done` channel),
* the watcher-event aggregation loop of `main`,
* the startup validation sequence of `main` together with `signalByName` and
  `usageAndExit`.

Durations are modelled in whole time-units with `time.Second = 1`, so the
graceful-wait deadline is `5` and the forced-wait deadline is `1`, and the
debounce delay is an arbitrary `D : Nat`.
-/

namespace Blart

/-- OS signals as the supervisor distinguishes them.  `int`, `kill` and `term`
stand for `os.Interrupt`, `os.Kill` and `syscall.SIGTERM`; `hup` is the default
change-notification signal; `other n` is any further signal (by number). -/
inductive Sig where
  | int
  | kill
  | term
  | hup
  | other (n : Nat)
  deriving DecidableEq, Repr

/-- The termination class tested by the shutdown switch in `main.go`:
`case os.Interrupt, os.Kill, syscall.SIGTERM:`. -/
def termClass : Sig → Bool
  | .int => true
  | .kill => true
  | .term => true
  | _ => false

/-! ## The shutdown controller (main.go, signal-relay goroutine)

The goroutine is

```
for {
    sig = <-c
    cmd.Process.Signal(sig)
    switch sig {
    case os.Interrupt, os.Kill, syscall.SIGTERM:
        select { case <-done: case <-time.After(5 * time.Second): }
        cmd.Process.Signal(os.Kill)
        select { case <-done: case <-time.After(time.Second): }
        os.Exit(1)
    }
}
```

`done` is an unbuffered channel written exactly once, by the goroutine that
blocks in `cmd.Wait()`.  Within the controller it behaves as a one-shot,
single-consumer notification: the first `select` that runs while the exit
notification is available consumes it; a later `select` can only time out.
The controller's two `select`s are not the only receivers, however: `main`
itself has been blocked at a final `<-done` since startup, and the runtime
delivers the single send to exactly one waiting receiver, with the choice
unspecified by the language (the gc runtime's FIFO receive queue in fact
favours `main`, the earliest waiter).

`runController` below is therefore the controller goroutine's own trace — the
view on the schedules where a pending controller `select` wins the delivery
race.  Facts proved from it that do not depend on that race (which signals are
forwarded, how many kills and deadline timers occur) hold on every schedule;
the delivery race itself, and the program-level exit status it decides, are
modelled by `programShutdown` further down, of which `runController`'s
shutdown phase is the `selectRecv` projection
(`programShutdown_selectRecv_agrees`).

The model runs the controller over a trace of the signals it reads from `c`
(time-stamped, in arrival order) together with the time at which the child's
exit notification fires (`none` when the child never exits during the run).
Observable actions are time-stamped. -/

/-- Actions the shutdown controller performs, in order of emission:
forwarding a received signal to the child (`cmd.Process.Signal(sig)`), starting
a deadline timer (`time.After`), sending the unconditional kill
(`cmd.Process.Signal(os.Kill)`), and terminating the supervisor itself
(`os.Exit(code)`). -/
inductive Act where
  | forward (s : Sig)
  | timer (d : Nat)
  | kill
  | exitSup (code : Nat)
  deriving DecidableEq, Repr

/-- One `select { case <-done: case <-time.After(window): }` started at time
`start`, where `exitTime` is the time the one-shot exit notification fires and
`consumed` records whether an earlier race already received it.  Returns the
time at which the select resolves and the updated consumed flag.  A pending
(pre-`start`) notification is received immediately; a notification at exactly
`start + window` is determinised in favour of the `done` case (the theorems
below stay away from that boundary). -/
def raceDone (exitTime : Option Nat) (consumed : Bool) (start window : Nat) :
    Nat × Bool :=
  match exitTime with
  | some e =>
      if consumed = false ∧ e ≤ start + window then (max start e, true)
      else (start + window, consumed)
  | none => (start + window, consumed)

/-- `true` when the child's exit notification fires at or before time `d`. -/
def exitsBy (exitTime : Option Nat) (d : Nat) : Bool :=
  match exitTime with
  | some x => x ≤ d
  | none => false

/-- The straight-line shutdown sequence entered at time `t` when a
termination-class signal has just been forwarded: graceful race (5 units),
unconditional kill, forced race (1 unit), `os.Exit(1)`.  Note that the source
falls through from the first `select` to the kill and from the second `select`
to `os.Exit(1)` unconditionally — neither race's outcome is branched on.
This is the controller goroutine's own trace; whether its final `os.Exit(1)`
is reached before the whole process has already exited through `main`'s
competing `<-done` (with status 0) is a delivery-race question handled by
`programShutdown`. -/
def shutdownActs (exitTime : Option Nat) (consumed : Bool) (t : Nat) :
    List (Nat × Act) :=
  let r1 := raceDone exitTime consumed t 5
  let r2 := raceDone exitTime r1.2 r1.1 1
  [(t, Act.timer 5), (r1.1, Act.kill), (r1.1, Act.timer 1), (r2.1, Act.exitSup 1)]

/-- The controller loop: read a signal, forward it, and either run the shutdown
sequence (termination class — the sequence ends in `os.Exit`, so no further
signal is ever read) or loop.  `consumed` is the one-shot-consumed flag for the
exit notification, `false` at the start of a run. -/
def runController (exitTime : Option Nat) :
    List (Nat × Sig) → Bool → List (Nat × Act)
  | [], _ => []
  | (t, s) :: rest, consumed =>
      (t, Act.forward s) ::
        (if termClass s then shutdownActs exitTime consumed t
         else runController exitTime rest consumed)

/-- The prefix of the signal trace the controller actually reads: everything up
to and including the first termination-class signal. -/
def takeThroughTerm : List (Nat × Sig) → List (Nat × Sig)
  | [] => []
  | (t, s) :: rest =>
      (t, s) :: (if termClass s then [] else takeThroughTerm rest)

/-- The non-forwarding suffix of a controller run: the shutdown actions of the
first termination-class signal in the trace, if any. -/
def shutdownTail (exitTime : Option Nat) (consumed : Bool) :
    List (Nat × Sig) → List (Nat × Act)
  | [] => []
  | (t, s) :: rest =>
      if termClass s then shutdownActs exitTime consumed t
      else shutdownTail exitTime consumed rest

/-- Is an action the unconditional kill? -/
def isKill : Act → Bool
  | .kill => true
  | _ => false

/-- Is an action the start of the 5-unit graceful deadline timer? -/
def isGracefulTimer : Act → Bool
  | .timer d => d == 5
  | _ => false

/-- Is an action a forward of some signal to the child? -/
def isForward : Act → Bool
  | .forward _ => true
  | _ => false

/-- Number of kill signals sent during a run. -/
def countKills (l : List (Nat × Act)) : Nat :=
  l.countP (fun x => isKill x.2)

/-- Number of graceful (5-unit) deadline timers started during a run. -/
def countGracefulTimers (l : List (Nat × Act)) : Nat :=
  l.countP (fun x => isGracefulTimer x.2)

/-- Number of times the given signal is forwarded to the child during a run. -/
def countForwardOf (s : Sig) (l : List (Nat × Act)) : Nat :=
  l.countP (fun x => x.2 == Act.forward s)

/-- `true` when a list of timed actions contains no forward action. -/
def noForwards (l : List (Nat × Act)) : Bool :=
  l.all (fun x => !isForward x.2)

/-- Which waiting receiver the runtime hands the one-shot `done` value to when
both are blocked: the `main` goroutine's final `<-done` (waiting since
startup; the gc runtime's FIFO receive queue makes it the default winner), or
the controller's currently pending `select`.  The language specifies no
choice, so executions are quantified over this parameter. -/
inductive DoneConsumer where
  | mainRecv
  | selectRecv
  deriving DecidableEq, Repr

/-- The whole supervisor's view of the shutdown phase entered at time `t`
(termination-class signal just forwarded), with the graceful and forced
deadlines written as in the source — `countdown := 5 * time.Second` and
`time.After(time.Second)` — over a tick length `sec` standing for
`time.Second` (the source's durations are opaque nanosecond counts, so the
tick is arbitrary; `runController` fixes `sec = 1`).

The child's exit notification (the single send on `done`, at `exitTime`) is
delivered to exactly one waiting receiver:

* if it fires before `t`, only `main` is waiting: `main` returns and the
  process exits with status 0 before the shutdown phase even starts;
* if it fires during the graceful window, the chosen receiver `k` either lets
  the controller's first `select` proceed (kill, forced timer, timeout,
  `os.Exit(1)`) or unblocks `main`, ending the process with status 0 with no
  kill ever sent;
* if it fires during the forced window, the kill has already been sent at the
  graceful deadline; the chosen receiver decides whether the controller's
  second `select` completes and runs `os.Exit(1)` or `main` returns first and
  the process exits with status 0;
* if it fires after the forced deadline (or never), both `select`s time out
  and `os.Exit(1)` runs, regardless of `k`.

Simultaneous notification delivery and timer expiry is determinised in favour
of the delivery (the `os.Exit(1)` call strictly follows the timer firing and
the subsequent print, while the delivery completes at the send instant); the
theorems stay away from such boundaries. -/
def programShutdown (sec : Nat) (exitTime : Option Nat) (t : Nat)
    (k : DoneConsumer) : List (Nat × Act) :=
  match exitTime with
  | none =>
      [(t, Act.timer (5 * sec)), (t + 5 * sec, Act.kill),
       (t + 5 * sec, Act.timer sec), (t + 5 * sec + sec, Act.exitSup 1)]
  | some e =>
      if e < t then [(e, Act.exitSup 0)]
      else if e ≤ t + 5 * sec then
        match k with
        | .selectRecv =>
            [(t, Act.timer (5 * sec)), (e, Act.kill), (e, Act.timer sec),
             (e + sec, Act.exitSup 1)]
        | .mainRecv => [(t, Act.timer (5 * sec)), (e, Act.exitSup 0)]
      else if e ≤ t + 5 * sec + sec then
        match k with
        | .selectRecv =>
            [(t, Act.timer (5 * sec)), (t + 5 * sec, Act.kill),
             (t + 5 * sec, Act.timer sec), (e, Act.exitSup 1)]
        | .mainRecv =>
            [(t, Act.timer (5 * sec)), (t + 5 * sec, Act.kill),
             (t + 5 * sec, Act.timer sec), (e, Act.exitSup 0)]
      else
        [(t, Act.timer (5 * sec)), (t + 5 * sec, Act.kill),
         (t + 5 * sec, Act.timer sec), (t + 5 * sec + sec, Act.exitSup 1)]

/-! ## The debounce dispatcher (`signalDebounce`)

The dispatcher goroutine is

```
for {
    cond.Wait()
    time.Sleep(delay)
    if process != nil { log.Println(...); process.Signal(sig) }
}
```

A `sync.Cond` has no memory: `Broadcast` wakes the dispatcher only if it is
currently inside `cond.Wait()`; a broadcast delivered while the dispatcher is
sleeping in `time.Sleep(delay)` or sending the signal is lost.  The timed-trace
semantics over a chronologically ordered list of notification (broadcast)
times is therefore: the first notification wakes the dispatcher, the fire
happens `D` later, notifications strictly inside the sleep window are dropped,
and the first notification at or after the fire instant starts the next cycle
(the notify-versus-fire race at exactly the fire instant is determinised in
favour of re-arming; the theorems stay away from that boundary). -/

/-- The dispatcher's control state: `none` while it is blocked in
`cond.Wait()`, `some th` while it is inside `time.Sleep(delay)` with the fire
scheduled for time `th`. -/
abbrev DispatchState := Option Nat

/-- The notification times that actually wake the dispatcher (one per
wait→sleep→fire cycle), starting from dispatcher state `st`: a broadcast at
time `t` while waiting wakes the dispatcher (fire scheduled at `t + D`); a
broadcast strictly before a scheduled fire is lost; a broadcast at or after
the scheduled fire meets a dispatcher that has fired and resumed waiting, so
it wakes it again. -/
def wakersFrom (D : Nat) : DispatchState → List Nat → List Nat
  | _, [] => []
  | none, t :: ts => t :: wakersFrom D (some (t + D)) ts
  | some th, t :: ts =>
      if t < th then wakersFrom D (some th) ts
      else t :: wakersFrom D (some (t + D)) ts

/-- The times at which the dispatcher reaches its fire point, starting from
state `st`; a fire already scheduled when the trace ends still happens. -/
def fireTimesFrom (D : Nat) : DispatchState → List Nat → List Nat
  | none, [] => []
  | some th, [] => [th]
  | none, t :: ts => fireTimesFrom D (some (t + D)) ts
  | some th, t :: ts =>
      if t < th then fireTimesFrom D (some th) ts
      else th :: fireTimesFrom D (some (t + D)) ts

/-- The waking notifications of a full run (dispatcher initially idle). -/
def wakers (D : Nat) (ns : List Nat) : List Nat :=
  wakersFrom D none ns

/-- The fire times of a full run over the chronologically ordered times of the
`cond.Broadcast()` calls, the dispatcher initially idle in `cond.Wait()`. -/
def fireTimes (D : Nat) (ns : List Nat) : List Nat :=
  fireTimesFrom D none ns

/-- `true` when every consecutive pair of the list is spaced strictly less than
`D` apart (the hypothesis of the coalescing property as the spec states it). -/
def pairwiseGapsLt (D : Nat) : List Nat → Bool
  | a :: b :: rest => (b < a + D) && pairwiseGapsLt D (b :: rest)
  | _ => true

/-- `true` when every time in the list lies in the window `[t, t + D)`. -/
def allWithin (t D : Nat) (l : List Nat) : Bool :=
  l.all fun u => t ≤ u && u < t + D

/-- What happens at the dispatcher's fire point, and the child-process handle:
a process is just its pid here. -/
abbrev Proc := Nat

/-- Observable actions of the dispatch goroutine. -/
inductive DbAct where
  | signalled (s : Sig)
  deriving DecidableEq, Repr

/-- `(*os.Process).Signal` as invoked on a possibly-absent handle: invoking it
on a nil handle is a runtime fault (modelled as an error); on a live handle it
sends the signal (fire and forget — the returned error is ignored by the
source, so a successful call just records the send). -/
def procSignal : Option Proc → Sig → Except String (List DbAct)
  | none, _ => Except.error "nil process handle"
  | some _, s => Except.ok [DbAct.signalled s]

/-- The body after the sleep in `signalDebounce`:
`if process != nil { log.Println("==> signalling child"); process.Signal(sig) }`.
The nil check guards the send, so a fire with no process handle performs
nothing and raises nothing. -/
def fireStep (process : Option Proc) (sig : Sig) :
    Except String (List DbAct) :=
  if process = none then Except.ok []
  else procSignal process sig

/-- `n` full wait→sleep→fire cycles of the dispatcher loop, collecting the
signals sent.  The loop runs forever in the source; `n` cycles of it suffice to
observe that it keeps running after any given fire. -/
def debounceRun (process : Option Proc) (sig : Sig) : Nat → Except String (List DbAct)
  | 0 => Except.ok []
  | n + 1 => do
      let a ← fireStep process sig
      let rest ← debounceRun process sig n
      pure (a ++ rest)

/-! ## The watcher-event aggregation loop (`main`)

```
for {
    select {
    case event = <-watcher.Events:
        log.Println("==> detected change in", event.Name)
        cond.Broadcast()
        if event.Op&fsnotify.Rename == fsnotify.Rename {
            watcher.Remove(event.Name)
            watcher.Add(event.Name)
        }
    case err = <-watcher.Errors:
        log.Println("==> error:", err)
    }
}
```

`fsnotify.Op` is a bitmask with `Rename = 1 << 3 = 8`. -/

/-- The `fsnotify.Rename` bit. -/
def fsnotifyRename : Nat := 8

/-- One input of the aggregation loop: an event (path name and operation
bitmask) or an asynchronous watcher error. -/
inductive WatchInput where
  | event (name : String) (op : Nat)
  | errorMsg (e : String)
  deriving DecidableEq, Repr

/-- Observable actions of the aggregation loop. -/
inductive AggAct where
  | logChange (name : String)
  | notifyDebounce
  | removeWatch (name : String)
  | addWatch (name : String)
  | logError (e : String)
  deriving DecidableEq, Repr

/-- One iteration of the aggregation loop. -/
def aggregateStep : WatchInput → List AggAct
  | .event name op =>
      [AggAct.logChange name, AggAct.notifyDebounce] ++
        (if op &&& fsnotifyRename = fsnotifyRename then
          [AggAct.removeWatch name, AggAct.addWatch name]
         else [])
  | .errorMsg e => [AggAct.logError e]

/-- The aggregation loop over a finite prefix of its input stream; neither
branch ever leaves the loop. -/
def aggregateRun : List WatchInput → List AggAct
  | [] => []
  | i :: rest => aggregateStep i ++ aggregateRun rest

/-- Number of debouncer notifications issued by a list of actions. -/
def countNotifies (l : List AggAct) : Nat :=
  l.countP (fun a => a == AggAct.notifyDebounce)

/-- `true` when the action list contains, somewhere, a `removeWatch name`
immediately followed by an `addWatch name` (the rename re-subscription). -/
def hasResubPair (name : String) : List AggAct → Bool
  | AggAct.removeWatch a :: AggAct.addWatch b :: rest =>
      (a == name && b == name) || hasResubPair name (AggAct.addWatch b :: rest)
  | _ :: rest => hasResubPair name rest
  | [] => false

/-! ## Startup validation (`main`, `signalByName`, `usageAndExit`)

`main` validates, in order: the configured signal name (`signalByName`),
watcher creation, a non-empty `-f` flag, a non-empty command, `watcher.Add` for
every `":"`-separated path, and `cmd.Start()`.  Each failure calls
`usageAndExit`, which prints `!! <problem>`, the usage text, a blank line and a
version line, then calls `os.Exit(1)`; the goroutines of the core runtime are
only spawned after all the checks pass. -/

/-- The signal table of the repository (the standalone `signals` source file:
names to `syscall` signal numbers). -/
def signals : List (String × Nat) :=
  [("ABRT", 6), ("ALRM", 14), ("BUS", 7), ("FPE", 8), ("HUP", 1), ("ILL", 4),
   ("INT", 2), ("KILL", 9), ("PIPE", 13), ("QUIT", 3), ("SEGV", 11),
   ("TERM", 15), ("TRAP", 5)]

/-- `signalByName`: uppercase the name and look it up in the table;
`unknown signal: <name>` when absent. -/
def signalByName (name : String) : Except String Nat :=
  match signals.lookup name.toUpper with
  | some s => Except.ok s
  | none => Except.error ("unknown signal: " ++ name)

/-- `true` exactly when the lookup failed. -/
def isErrB : Except String Nat → Bool
  | .error _ => true
  | .ok _ => false

/-- The lines `usageAndExit` prints, in order. -/
inductive OutLine where
  | problem (s : String)
  | usageText
  | blank
  | versionLine
  deriving DecidableEq, Repr

/-- `usageAndExit(s)`: the printed lines and the exit status `1`. -/
def usageAndExit (s : String) : List OutLine × Nat :=
  ([OutLine.problem s, OutLine.usageText, OutLine.blank, OutLine.versionLine], 1)

/-- The configuration and environment outcomes `main` consumes during startup.
`addFails p` says whether `watcher.Add p` returns an error; `watcherOk` and
`startOk` are the outcomes of `fsnotify.NewWatcher()` and `cmd.Start()`.  The
error strings carried by failing collaborators are abstracted to fixed
descriptions. -/
structure StartupConfig where
  sigName : String
  watcherOk : Bool
  filesFlag : String
  args : List String
  addFails : String → Bool
  startOk : Bool

/-- The state handed to the core runtime when every startup check passes. -/
structure RuntimeStart where
  sig : Nat
  paths : List String
  cmdArgs : List String

/-- The startup sequence of `main`, up to the point where the core runtime's
goroutines are spawned: either a `usageAndExit` outcome (left) or the runtime
is entered (right). -/
def runStartup (c : StartupConfig) : Sum (List OutLine × Nat) RuntimeStart :=
  match signalByName c.sigName with
  | .error e => Sum.inl (usageAndExit e)
  | .ok sig =>
      if c.watcherOk = false then Sum.inl (usageAndExit "watcher creation failed")
      else if c.filesFlag = "" then Sum.inl (usageAndExit "no files to watch")
      else if c.args = [] then Sum.inl (usageAndExit "no command specified")
      else
        match (c.filesFlag.splitOn ":").find? c.addFails with
        | some p => Sum.inl (usageAndExit ("add watch failed: " ++ p))
        | none =>
            if c.startOk = false then Sum.inl (usageAndExit "starting child failed")
            else Sum.inr ⟨sig, c.filesFlag.splitOn ":", c.args⟩

/-- `true` when the outcome is an exit with status 1 whose output is the
problem line followed by the usage text (then the blank and version lines). -/
def failsWithUsage : Sum (List OutLine × Nat) RuntimeStart → Bool
  | .inl ([OutLine.problem _, OutLine.usageText, OutLine.blank, OutLine.versionLine], 1) =>
      true
  | _ => false

/-- The disjunction of the startup validation failures the specification
enumerates (plus watcher creation, which the source checks in the same way). -/
def validationFailsB (c : StartupConfig) : Bool :=
  isErrB (signalByName c.sigName) || !c.watcherOk || c.filesFlag == "" ||
    c.args == [] || (c.filesFlag.splitOn ":").any c.addFails || !c.startOk

/-! ## Helper lemmas -/

theorem shutdownActs_kills (e : Option Nat) (c : Bool) (t : Nat) :
    countKills (shutdownActs e c t) = 1 := by
  simp [shutdownActs, countKills, List.countP_cons, isKill]

theorem shutdownActs_gracefulTimers (e : Option Nat) (c : Bool) (t : Nat) :
    countGracefulTimers (shutdownActs e c t) = 1 := by
  simp [shutdownActs, countGracefulTimers, List.countP_cons, isGracefulTimer]

theorem shutdownActs_noForwards (e : Option Nat) (c : Bool) (t : Nat) :
    noForwards (shutdownActs e c t) = true := by
  simp [shutdownActs, noForwards, isForward]

theorem countKills_cons_forward (t : Nat) (s : Sig) (l : List (Nat × Act)) :
    countKills ((t, Act.forward s) :: l) = countKills l := by
  simp [countKills, List.countP_cons, isKill]

theorem countGracefulTimers_cons_forward (t : Nat) (s : Sig)
    (l : List (Nat × Act)) :
    countGracefulTimers ((t, Act.forward s) :: l) = countGracefulTimers l := by
  simp [countGracefulTimers, List.countP_cons, isGracefulTimer]

theorem runController_cons_term (e : Option Nat) (c : Bool) (t : Nat) (s : Sig)
    (rest : List (Nat × Sig)) (hts : termClass s = true) :
    runController e ((t, s) :: rest) c
      = (t, Act.forward s) :: shutdownActs e c t := by
  simp [runController, hts]

theorem runController_cons_other (e : Option Nat) (c : Bool) (t : Nat) (s : Sig)
    (rest : List (Nat × Sig)) (hts : termClass s = false) :
    runController e ((t, s) :: rest) c
      = (t, Act.forward s) :: runController e rest c := by
  simp [runController, hts]

theorem countKills_le_one (e : Option Nat) (c : Bool) :
    ∀ sigs, countKills (runController e sigs c) ≤ 1 := by
  intro sigs
  induction sigs with
  | nil => simp [runController, countKills]
  | cons hd tl ih =>
      obtain ⟨t, s⟩ := hd
      cases hts : termClass s with
      | true =>
          rw [runController_cons_term e c t s tl hts, countKills_cons_forward,
            shutdownActs_kills]
      | false =>
          rw [runController_cons_other e c t s tl hts, countKills_cons_forward]
          exact ih

theorem countGracefulTimers_le_one (e : Option Nat) (c : Bool) :
    ∀ sigs, countGracefulTimers (runController e sigs c) ≤ 1 := by
  intro sigs
  induction sigs with
  | nil => simp [runController, countGracefulTimers]
  | cons hd tl ih =>
      obtain ⟨t, s⟩ := hd
      cases hts : termClass s with
      | true =>
          rw [runController_cons_term e c t s tl hts,
            countGracefulTimers_cons_forward, shutdownActs_gracefulTimers]
      | false =>
          rw [runController_cons_other e c t s tl hts,
            countGracefulTimers_cons_forward]
          exact ih

theorem programShutdown_selectRecv_agrees (exitTime : Option Nat) (t : Nat)
    (h : ∀ e, exitTime = some e → t ≤ e) :
    programShutdown 1 exitTime t DoneConsumer.selectRecv
      = shutdownActs exitTime false t := by
  cases exitTime with
  | none => simp [programShutdown, shutdownActs, raceDone]
  | some e =>
      have hte : t ≤ e := h e rfl
      have hlt : ¬e < t := by omega
      by_cases h5 : e ≤ t + 5
      · have hmax : max t e = e := Nat.max_eq_right hte
        simp [programShutdown, shutdownActs, raceDone, hlt, h5, hmax]
      · by_cases h6 : e ≤ t + 5 + 1
        · have hmax : max (t + 5) e = e := Nat.max_eq_right (by omega)
          simp [programShutdown, shutdownActs, raceDone, hlt, h5, h6, hmax]
        · simp [programShutdown, shutdownActs, raceDone, hlt, h5, h6]

theorem fireTimesFrom_of_all_lt (D th : Nat) :
    ∀ l : List Nat, (∀ u ∈ l, u < th) → fireTimesFrom D (some th) l = [th] := by
  intro l
  induction l with
  | nil => intro _; rfl
  | cons u ts ih =>
      intro h
      have hu : u < th := h u (List.mem_cons_self u ts)
      simp [fireTimesFrom, hu]
      exact ih fun x hx => h x (List.mem_cons_of_mem u hx)

theorem fireTimesFrom_some_eq_map (D : Nat) :
    ∀ (l : List Nat) (th : Nat),
      fireTimesFrom D (some th) l
        = th :: (wakersFrom D (some th) l).map (fun x => x + D) := by
  intro l
  induction l with
  | nil => intro th; rfl
  | cons t ts ih =>
      intro th
      by_cases h : t < th
      · simp [fireTimesFrom, wakersFrom, h, ih th]
      · simp [fireTimesFrom, wakersFrom, h, ih (t + D)]

theorem fireTimes_eq_map_wakers (D : Nat) (ns : List Nat) :
    fireTimes D ns = (wakers D ns).map (fun x => x + D) := by
  cases ns with
  | nil => rfl
  | cons t ts =>
      simp [fireTimes, wakers, fireTimesFrom, wakersFrom,
        fireTimesFrom_some_eq_map D ts (t + D)]

theorem wakersFrom_sublist (D : Nat) :
    ∀ (l : List Nat) (st : DispatchState), (wakersFrom D st l).Sublist l := by
  intro l
  induction l with
  | nil => intro st; cases st <;> exact List.Sublist.refl []
  | cons t ts ih =>
      intro st
      cases st with
      | none => exact (ih (some (t + D))).cons₂ t
      | some th =>
          by_cases h : t < th
          · simpa [wakersFrom, h] using (ih (some th)).cons t
          · simpa [wakersFrom, h] using (ih (some (t + D))).cons₂ t

theorem wakersFrom_some_bounds (D : Nat) :
    ∀ (l : List Nat) (th : Nat) (x : Nat),
      x ∈ wakersFrom D (some th) l → th ≤ x := by
  intro l
  induction l with
  | nil => intro th x hx; simp [wakersFrom] at hx
  | cons t ts ih =>
      intro th x hx
      by_cases h : t < th
      · exact ih th x (by simpa [wakersFrom, h] using hx)
      · rw [wakersFrom] at hx
        simp only [if_neg h] at hx
        rcases List.mem_cons.mp hx with rfl | hx'
        · omega
        · have := ih (t + D) x hx'
          omega

theorem wakersFrom_chain (D : Nat) :
    ∀ (l : List Nat) (st : DispatchState),
      List.Chain' (fun a b => a + D ≤ b) (wakersFrom D st l) := by
  intro l
  induction l with
  | nil => intro st; cases st <;> exact List.chain'_nil
  | cons t ts ih =>
      intro st
      cases st with
      | none =>
          rw [wakersFrom]
          refine List.chain'_cons'.mpr ⟨?_, ih (some (t + D))⟩
          intro y hy
          exact wakersFrom_some_bounds D ts (t + D) y
            (List.mem_of_mem_head? hy)
      | some th =>
          by_cases h : t < th
          · simpa [wakersFrom, h] using ih (some th)
          · rw [wakersFrom]
            simp only [if_neg h]
            refine List.chain'_cons'.mpr ⟨?_, ih (some (t + D))⟩
            intro y hy
            exact wakersFrom_some_bounds D ts (t + D) y
              (List.mem_of_mem_head? hy)

theorem runStartup_fail_of_validation (c : StartupConfig)
    (h : validationFailsB c = true) :
    ∃ p, runStartup c = Sum.inl (usageAndExit p) := by
  unfold runStartup
  cases hsig : signalByName c.sigName with
  | error e => exact ⟨e, rfl⟩
  | ok sg =>
      dsimp only
      by_cases hw : c.watcherOk = false
      · rw [if_pos hw]; exact ⟨_, rfl⟩
      · rw [if_neg hw]
        by_cases hf : c.filesFlag = ""
        · rw [if_pos hf]; exact ⟨_, rfl⟩
        · rw [if_neg hf]
          by_cases ha : c.args = []
          · rw [if_pos ha]; exact ⟨_, rfl⟩
          · rw [if_neg ha]
            cases hfind : (c.filesFlag.splitOn ":").find? c.addFails with
            | some p => exact ⟨_, rfl⟩
            | none =>
                by_cases hst : c.startOk = false
                · rw [if_pos hst]; exact ⟨_, rfl⟩
                · exfalso
                  have hw' : c.watcherOk = true := by
                    cases hcw : c.watcherOk
                    · exact absurd hcw hw
                    · rfl
                  have hst' : c.startOk = true := by
                    cases hcs : c.startOk
                    · exact absurd hcs hst
                    · rfl
                  simp [validationFailsB, hsig, isErrB, hw', hst', hf, ha,
                    List.any_eq_true] at h
                  obtain ⟨x, hx, hpx⟩ := h
                  exact List.find?_eq_none.mp hfind x hx hpx

/-! ## The claims -/

/-- **C1** (code bug, evaluation at the failing input).  After SIGTERM at
`t = 0` the child exits at `t = 2`, well inside the 5-unit graceful window —
yet the controller still sends the unconditional kill (at `t = 2`) and still
terminates the supervisor with status 1 (at `t = 3`): the source falls through
both `select`s unconditionally, contradicting its own comments (`"it hasn't
shut down yet, so attempt to SIGKILL"`, `"still hasn't exited, so killing
self"`), which describe the intended deadline-elapsed-only path that the claim
(and the spec) state. -/
theorem C1_graceful_race_divergence :
    runController (some 2) [(0, Sig.term)] false
      = [(0, Act.forward Sig.term), (0, Act.timer 5), (2, Act.kill),
         (2, Act.timer 1), (3, Act.exitSup 1)]
    ∧ exitsBy (some 2) (0 + 5) = true
    ∧ countKills (runController (some 2) [(0, Sig.term)] false) = 1 := by
  decide

/-- **C2** is false as stated: the supervisor does not exit with a non-zero
status "regardless of whether the child exits within the second 1-time-unit
deadline".  With `time.Second = 2` ticks (sub-second resolution, so the forced
window `(10, 12)` has an interior point), SIGTERM entering the shutdown phase
at `t = 0` and the child not exiting by the graceful deadline `10`, the kill
is sent exactly once at `10`; but the child then dies at `11`, inside the
forced window, and on the legal schedule — the gc runtime's default, since
`main`'s `<-done` is the earliest-enqueued receiver — where the one-shot
notification unblocks `main` rather than the controller's second `select`,
`main` returns and the process exits with status **0** at `11`, before the
controller's `os.Exit(1)` would have run at `12`. -/
theorem C2_counterexample :
    exitsBy (some 11) (0 + 5 * 2) = false
    ∧ countKills (programShutdown 2 (some 11) 0 DoneConsumer.mainRecv) = 1
    ∧ programShutdown 2 (some 11) 0 DoneConsumer.mainRecv
        = [(0, Act.timer 10), (10, Act.kill), (10, Act.timer 2),
           (11, Act.exitSup 0)] := by
  decide

/-- **C2 (amended)**.  If the child does not exit within the graceful-wait
deadline, the forced-kill is sent exactly once — on every schedule.  The
supervisor then exits: with status 1 whenever the child also misses the forced
deadline (or never exits), and with status 1 on every schedule where the
controller's pending `select` receives the exit notification; but when the
child exits within the second deadline and the one-shot notification is
delivered to `main`'s competing final `<-done` instead, the supervisor exits
with status 0. -/
theorem C2_forced_escalation_sched (sec t e : Nat) (k : DoneConsumer)
    (he : t + 5 * sec < e) :
    countKills (programShutdown sec (some e) t k) = 1
    ∧ countKills (programShutdown sec none t k) = 1
    ∧ programShutdown sec none t k
        = [(t, Act.timer (5 * sec)), (t + 5 * sec, Act.kill),
           (t + 5 * sec, Act.timer sec), (t + 5 * sec + sec, Act.exitSup 1)]
    ∧ programShutdown sec (some e) t DoneConsumer.selectRecv
        = [(t, Act.timer (5 * sec)), (t + 5 * sec, Act.kill),
           (t + 5 * sec, Act.timer sec),
           (min e (t + 5 * sec + sec), Act.exitSup 1)]
    ∧ programShutdown sec (some e) t DoneConsumer.mainRecv
        = [(t, Act.timer (5 * sec)), (t + 5 * sec, Act.kill),
           (t + 5 * sec, Act.timer sec),
           (if e ≤ t + 5 * sec + sec then (e, Act.exitSup 0)
            else (t + 5 * sec + sec, Act.exitSup 1))] := by
  have hlt : ¬e < t := by omega
  have h5 : ¬e ≤ t + 5 * sec := by omega
  refine ⟨?_, ?_, ?_, ?_, ?_⟩
  · by_cases h6 : e ≤ t + 5 * sec + sec <;> cases k <;>
      simp [programShutdown, hlt, h5, h6, countKills, List.countP_cons, isKill]
  · cases k <;> simp [programShutdown, countKills, List.countP_cons, isKill]
  · cases k <;> simp [programShutdown]
  · by_cases h6 : e ≤ t + 5 * sec + sec
    · simp [programShutdown, hlt, h5, h6, Nat.min_eq_left h6]
    · simp [programShutdown, hlt, h5, h6, Nat.min_eq_right (le_of_not_le h6)]
  · by_cases h6 : e ≤ t + 5 * sec + sec <;>
      simp [programShutdown, hlt, h5, h6]

/-- Witness for C2 (amended): tick `sec = 2`, shutdown phase at `t = 0`, child
exits at `e = 11`, inside the forced window `(10, 12)`. -/
theorem C2_forced_escalation_sched_witness :
    0 + 5 * 2 < 11
    ∧ (countKills (programShutdown 2 (some 11) 0 DoneConsumer.mainRecv) = 1
       ∧ countKills (programShutdown 2 none 0 DoneConsumer.mainRecv) = 1
       ∧ programShutdown 2 none 0 DoneConsumer.mainRecv
           = [(0, Act.timer (5 * 2)), (0 + 5 * 2, Act.kill),
              (0 + 5 * 2, Act.timer 2), (0 + 5 * 2 + 2, Act.exitSup 1)]
       ∧ programShutdown 2 (some 11) 0 DoneConsumer.selectRecv
           = [(0, Act.timer (5 * 2)), (0 + 5 * 2, Act.kill),
              (0 + 5 * 2, Act.timer 2),
              (min 11 (0 + 5 * 2 + 2), Act.exitSup 1)]
       ∧ programShutdown 2 (some 11) 0 DoneConsumer.mainRecv
           = [(0, Act.timer (5 * 2)), (0 + 5 * 2, Act.kill),
              (0 + 5 * 2, Act.timer 2),
              (if 11 ≤ 0 + 5 * 2 + 2 then ((11 : Nat), Act.exitSup 0)
               else (0 + 5 * 2 + 2, Act.exitSup 1))]) :=
  ⟨by decide, C2_forced_escalation_sched 2 0 11 DoneConsumer.mainRecv (by decide)⟩

/-- **C3** is false as stated: a SIGINT read would-be at `t = 1`, after the
SIGTERM at `t = 0` has entered the shutdown sequence, is never forwarded to
the child — the shutdown sequence ends in `os.Exit(1)` and the loop never
returns to `sig = <-c`, so the forward count of the later signal is `0`, not
`1`. -/
theorem C3_counterexample :
    runController none [(0, Sig.term), (1, Sig.int)] false
      = [(0, Act.forward Sig.term), (0, Act.timer 5), (5, Act.kill),
         (5, Act.timer 1), (6, Act.exitSup 1)]
    ∧ countForwardOf Sig.int
        (runController none [(0, Sig.term), (1, Sig.int)] false) = 0 := by
  decide

/-- **C3 (amended)**.  Every signal the supervisor's relay loop reads up to and
including the first termination-class signal is forwarded to the child exactly
once, in order, and each forward precedes all shutdown state-machine actions;
signals read after the first termination-class signal do not exist — the
shutdown sequence never returns to the loop — so no later signal is ever
forwarded. -/
theorem C3_forward_prefix (exitTime : Option Nat) (sigs : List (Nat × Sig))
    (c : Bool) :
    runController exitTime sigs c
      = (takeThroughTerm sigs).map (fun p => (p.1, Act.forward p.2))
          ++ shutdownTail exitTime c sigs
    ∧ noForwards (shutdownTail exitTime c sigs) = true := by
  induction sigs with
  | nil => simp [runController, takeThroughTerm, shutdownTail, noForwards]
  | cons hd tl ih =>
      obtain ⟨t, s⟩ := hd
      cases hts : termClass s with
      | true =>
          refine ⟨?_, ?_⟩
          · rw [runController_cons_term exitTime c t s tl hts]
            simp [takeThroughTerm, shutdownTail, hts]
          · simp [shutdownTail, hts, shutdownActs_noForwards]
      | false =>
          refine ⟨?_, ?_⟩
          · rw [runController_cons_other exitTime c t s tl hts]
            simp [takeThroughTerm, shutdownTail, hts, ih.1]
          · simpa [shutdownTail, hts] using ih.2

/-- **C5** is false as stated: with SIGTERM at `t = 0` and the child exiting at
`t = 1`, the graceful race consumes the one-shot `done` notification (first
conjunct), after which the forced race resolves only at its full timeout
`t = 2` (second conjunct) — even though an unconsumed race at the same point
would observe the exit immediately at `t = 1` (third conjunct).  The full run
(fourth conjunct) shows the controller reaching `os.Exit(1)` at `t = 2`, a
whole forced-wait deadline after the child is already gone: the late waiter
blocked until its timeout solely because the earlier waiter consumed the only
notification. -/
theorem C5_counterexample :
    raceDone (some 1) false 0 5 = (1, true)
    ∧ raceDone (some 1) true 1 1 = (2, true)
    ∧ raceDone (some 1) false 1 1 = (1, true)
    ∧ runController (some 1) [(0, Sig.term)] false
        = [(0, Act.forward Sig.term), (0, Act.timer 5), (1, Act.kill),
           (1, Act.timer 1), (2, Act.exitSup 1)] := by
  decide

/-- **C5 (amended)**.  The exit notification is single-consumer, not broadcast:
once the graceful-wait race has consumed it (child exits at `e ≤ t + 5`), the
forced-wait race can no longer observe the exit and always runs to its full
1-unit deadline — the final `os.Exit(1)` happens at `max t e + 1`, never
earlier. -/
theorem C5_single_consumer (t e : Nat) (s : Sig)
    (hs : termClass s = true) (he : e ≤ t + 5) :
    runController (some e) [(t, s)] false
      = [(t, Act.forward s), (t, Act.timer 5), (max t e, Act.kill),
         (max t e, Act.timer 1), (max t e + 1, Act.exitSup 1)] := by
  have h1 : raceDone (some e) false t 5 = (max t e, true) := by
    simp [raceDone, he]
  have h2 : raceDone (some e) true (max t e) 1 = (max t e + 1, true) := by
    simp [raceDone]
  rw [runController_cons_term (some e) false t s [] hs]
  simp [shutdownActs, h1, h2]

/-- Witness for C5 (amended): SIGTERM at `t = 0`, child exits at `e = 3`. -/
theorem C5_single_consumer_witness :
    termClass Sig.term = true
    ∧ 3 ≤ 0 + 5
    ∧ runController (some 3) [(0, Sig.term)] false
        = [(0, Act.forward Sig.term), (0, Act.timer 5), (max 0 3, Act.kill),
           (max 0 3, Act.timer 1), (max 0 3 + 1, Act.exitSup 1)] :=
  ⟨by decide, by decide,
    C5_single_consumer 0 3 Sig.term (by decide) (by decide)⟩

/-- **C6** (confirmed).  In any run of the controller at most one kill is sent
and at most one graceful (5-unit) deadline timer is started; and when the
trace begins with two termination-class signals in quick succession, exactly
one graceful timer is started and exactly one kill is sent — the second signal
is never even read, since the single shutdown sequence ends in `os.Exit(1)`. -/
theorem C6_single_sequence (e : Option Nat) (c : Bool) (t1 t2 : Nat)
    (s1 s2 : Sig) (rest : List (Nat × Sig))
    (h1 : termClass s1 = true) (h2 : termClass s2 = true) :
    (∀ sigs, countKills (runController e sigs c) ≤ 1
      ∧ countGracefulTimers (runController e sigs c) ≤ 1)
    ∧ countKills (runController e ((t1, s1) :: (t2, s2) :: rest) c) = 1
    ∧ countGracefulTimers (runController e ((t1, s1) :: (t2, s2) :: rest) c)
        = 1 := by
  refine ⟨fun sigs => ⟨countKills_le_one e c sigs,
    countGracefulTimers_le_one e c sigs⟩, ?_, ?_⟩
  · rw [runController_cons_term e c t1 s1 ((t2, s2) :: rest) h1,
      countKills_cons_forward, shutdownActs_kills]
  · rw [runController_cons_term e c t1 s1 ((t2, s2) :: rest) h1,
      countGracefulTimers_cons_forward, shutdownActs_gracefulTimers]

/-- Witness for C6: SIGTERM at `t = 0` immediately followed by SIGINT. -/
theorem C6_single_sequence_witness :
    termClass Sig.term = true ∧ termClass Sig.int = true
    ∧ (countKills (runController none [(0, Sig.term), (0, Sig.int)] false) = 1
       ∧ countGracefulTimers
           (runController none [(0, Sig.term), (0, Sig.int)] false) = 1) :=
  ⟨by decide, by decide,
    (C6_single_sequence none false 0 0 Sig.term Sig.int [] (by decide)
      (by decide)).2⟩

/-- **C4** is false as stated: with `D = 200` and notifications at
`t = 0, 150, 300` — every consecutive pair less than `D` apart, dispatcher
initially idle — the dispatcher fires twice (at `200 = 0 + 200` and at
`500 = 300 + 200`), not exactly once, and its first fire happens `D` after the
*first* call of the burst, not `D` after the last call (the `sync.Cond` has no
memory, so broadcasts landing inside the sleep window neither count nor extend
the already-scheduled fire, and a broadcast after a completed fire starts a
fresh cycle). -/
theorem C4_counterexample :
    pairwiseGapsLt 200 [0, 150, 300] = true
    ∧ fireTimes 200 [0, 150, 300] = [0 + 200, 300 + 200]
    ∧ (fireTimes 200 [0, 150, 300]).length ≠ 1 := by
  decide

/-- **C4 (amended)**.  For any sequence of `notify()` calls that begins while
the dispatcher is idle and whose calls all land within `D` of the first call,
exactly one downstream fire happens, and it happens once `D` has elapsed after
the *first* call of the sequence; the later calls of the burst are coalesced
into zero additional fires and do not postpone the scheduled one. -/
theorem C4_trailing_debounce (D t : Nat) (rest : List Nat)
    (h : allWithin t D rest = true) :
    fireTimes D (t :: rest) = [t + D] := by
  have h' : ∀ u ∈ rest, u < t + D := by
    intro u hu
    have := (List.all_eq_true.mp h) u hu
    simp only [Bool.and_eq_true, decide_eq_true_eq] at this
    exact this.2
  simp [fireTimes, fireTimesFrom, fireTimesFrom_of_all_lt D (t + D) rest h']

/-- Witness for C4 (amended): the spec's own burst, `D = 200` and calls at
`t = 0, 10, 20, 150, 160`, produces the single fire at `t = 200`. -/
theorem C4_trailing_debounce_witness :
    allWithin 0 200 [10, 20, 150, 160] = true
    ∧ fireTimes 200 (0 :: [10, 20, 150, 160]) = [0 + 200] :=
  ⟨by decide, C4_trailing_debounce 200 0 [10, 20, 150, 160] (by decide)⟩

/-- **C7** (confirmed).  If the dispatcher's fire point is reached while the
child-process handle is nil, the guarded body performs no send and raises no
fault (`Except.ok []`), and the loop keeps running: any number of further
cycles also return successfully with no signal sent.  The last conjunct shows
what the guard prevents: the unguarded `process.Signal` on a nil handle would
be a runtime fault. -/
theorem C7_silent_drop (s : Sig) (n : Nat) :
    fireStep none s = Except.ok []
    ∧ debounceRun none s n = Except.ok []
    ∧ procSignal none s = Except.error "nil process handle" := by
  refine ⟨rfl, ?_, rfl⟩
  induction n with
  | zero => rfl
  | succ k ih =>
      simp only [debounceRun, fireStep, ih]
      rfl

/-- **C10** (confirmed).  The dispatcher never fires without having been woken:
with no notifications there are no fires; in general the fires are exactly the
waking notifications shifted by `D`, the waking notifications form a
subsequence of the broadcast notifications, and each waking notification is at
least `D` after the previous one — i.e. it arrives at or after the previous
fire, once the dispatcher has resumed waiting. -/
theorem C10_no_spurious_fires (D : Nat) (ns : List Nat) :
    fireTimes D [] = []
    ∧ fireTimes D ns = (wakers D ns).map (fun x => x + D)
    ∧ (wakers D ns).Sublist ns
    ∧ List.Chain' (fun a b => a + D ≤ b) (wakers D ns) :=
  ⟨rfl, fireTimes_eq_map_wakers D ns, wakersFrom_sublist D ns none,
    wakersFrom_chain D ns none⟩

/-- **C8** (confirmed).  Every filesystem event, whatever its operation
bitmask, makes the aggregation loop notify the debouncer exactly once; the
watch is removed and immediately re-added for the event's path exactly when
the operation includes the rename bit; an asynchronous watcher error is only
logged — it issues no notification and the loop goes on to process the rest of
its input stream. -/
theorem C8_aggregator (name : String) (op : Nat) (e : String)
    (rest : List WatchInput) :
    countNotifies (aggregateStep (WatchInput.event name op)) = 1
    ∧ hasResubPair name (aggregateStep (WatchInput.event name op))
        = (op &&& fsnotifyRename == fsnotifyRename)
    ∧ aggregateStep (WatchInput.errorMsg e) = [AggAct.logError e]
    ∧ countNotifies (aggregateStep (WatchInput.errorMsg e)) = 0
    ∧ aggregateRun (WatchInput.errorMsg e :: rest)
        = AggAct.logError e :: aggregateRun rest := by
  refine ⟨?_, ?_, rfl, rfl, rfl⟩
  · by_cases h : op &&& fsnotifyRename = fsnotifyRename <;>
      simp [aggregateStep, countNotifies, List.countP_cons, h]
  · by_cases h : op &&& fsnotifyRename = fsnotifyRename <;>
      simp [aggregateStep, hasResubPair, h]

/-- **C9** (confirmed).  `signalByName` returns an error exactly when the
(uppercased, as the lookup is spelled in the source) name is missing from the
signal table; and every startup validation failure — unknown signal name,
failed watcher creation, empty watch-path flag, empty command, a path
`watcher.Add` rejects, or a failed `cmd.Start()` — makes `main` print the
problem line followed by the usage text and exit with status 1, never reaching
the core runtime (the outcome is `Sum.inl`, and the goroutines of the core are
only spawned on `Sum.inr`). -/
theorem C9_startup_validation (name : String) (c : StartupConfig)
    (h : validationFailsB c = true) :
    (isErrB (signalByName name) = true ↔ signals.lookup name.toUpper = none)
    ∧ failsWithUsage (runStartup c) = true
    ∧ Sum.isLeft (runStartup c) = true := by
  obtain ⟨p, hp⟩ := runStartup_fail_of_validation c h
  refine ⟨?_, by rw [hp]; rfl, by rw [hp]; rfl⟩
  cases hl : signals.lookup name.toUpper <;> simp [signalByName, isErrB, hl]

/-- Witness for C9: a configuration with no command specified (and an unknown
lower-case-insensitive signal lookup probe `"hup"`, which succeeds). -/
theorem C9_startup_validation_witness :
    validationFailsB ⟨"HUP", true, "src", [], fun _ => false, true⟩ = true
    ∧ ((isErrB (signalByName "hup") = true
          ↔ signals.lookup (String.toUpper "hup") = none)
       ∧ failsWithUsage
           (runStartup ⟨"HUP", true, "src", [], fun _ => false, true⟩) = true
       ∧ Sum.isLeft
           (runStartup ⟨"HUP", true, "src", [], fun _ => false, true⟩) = true) :=
  ⟨by simp [validationFailsB],
    C9_startup_validation "hup" ⟨"HUP", true, "src", [], fun _ => false, true⟩
      (by simp [validationFailsB])⟩

end Blart
